import Mathlib

/-!
Verification of the styx stateful-function execution core
(src/styx-package/styx/common/stateful_function.py) against its design
specification: key hashing and partition routing, the invocation wrapper,
and the fractional acknowledgment-share protocol for chain-completion
detection.  Python values are shallowly embedded: machine integers become
Int/Nat, `fractions.Fraction` becomes ℚ, exceptions become an explicit
error type, and the side effects on the networking / protocol
collaborators become explicit event lists.
-/

namespace Styx

/-- The exceptions that can arise in the embedded fragment.
`NonSupportedKeyType` is raised by `make_key_hashable` (exceptions.py);
`KeyErrorMissing k` models a Python `KeyError(k)` from a dict lookup;
`ZeroDivisionError` models `%` by zero; `TypeErrorUnpackNone` models
unpacking the `None` returned by `__prepare_message_transmission` after a
caught `KeyError`; `UserError` stands for an arbitrary exception raised by
the user function body. -/
inductive StyxError : Type where
  | NonSupportedKeyType : StyxError
  | KeyErrorMissing : String → StyxError
  | ZeroDivisionError : StyxError
  | TypeErrorUnpackNone : StyxError
  | UserError : String → StyxError
deriving DecidableEq, Repr

/-- An application key as passed to `make_key_hashable`: a Python `int`,
a Python `str`, or any other value (`KOther s` stands for a value of some
other type, described by `s`). -/
inductive Key : Type where
  | KInt : Int → Key
  | KStr : String → Key
  | KOther : String → Key
deriving DecidableEq, Repr

/-- Value of a hexadecimal digit character, `none` for a non-hex character. -/
def hexDigitVal (c : Char) : Option Nat :=
  if '0' ≤ c ∧ c ≤ '9' then some (c.toNat - 48)
  else if 'a' ≤ c ∧ c ≤ 'f' then some (c.toNat - 87)
  else if 'A' ≤ c ∧ c ≤ 'F' then some (c.toNat - 55)
  else none

/-- Modelled from the spec: the Python standard library constructor
`uuid.UUID(text)` (external to this repository), which accepts a
UUID-formatted string — 32 hexadecimal digits, hyphens ignored — and
exposes its 128-bit integer value as `.int`; any other string raises
`ValueError`, modelled by `none`. -/
def parseUUID (s : String) : Option Nat :=
  let cs := s.data.filter (fun c => c ≠ '-')
  if cs.length = 32 then
    cs.foldlM (fun acc c => (hexDigitVal c).map (fun d => acc * 16 + d)) 0
  else none

/-- Modelled from the spec: `mmh3.hash(s, seed=0, signed=False)` (external
library), a fixed, seeded, deterministic 32-bit string hash returning a
non-negative value below 2^32, identical across all workers.  The exact
mixing function is irrelevant to the claims; only determinism and the
32-bit non-negative range are used. -/
def mmh3hash (s : String) : Nat :=
  s.data.foldl (fun acc c => (acc * 31 + c.toNat) % 4294967296) 0

/-- Embedding of `make_key_hashable` (stateful_function.py, lines 22-32):
integers pass through unchanged; strings are first tried as UUID text
(128-bit integer value) and otherwise hashed with the seeded unsigned
mmh3 hash; any other type raises `NonSupportedKeyType`. -/
def make_key_hashable : Key → Except StyxError Int
  | Key.KInt k => Except.ok k
  | Key.KStr s =>
      match parseUUID s with
      | some u => Except.ok (u : Int)
      | none => Except.ok ((mmh3hash s : Nat) : Int)
  | Key.KOther _ => Except.error StyxError.NonSupportedKeyType

/-- Embedding of the partition computation
`make_key_hashable(key) % len(self.__dns[operator_name].keys())`
(stateful_function.py, line 173, inside `call_remote_async`); the key is
hashed first, then reduced modulo the partition count.  Python `%` on a
positive modulus agrees with `Int.emod`; `% 0` raises
`ZeroDivisionError`. -/
def partition (key : Key) (n_partitions : Nat) : Except StyxError Int :=
  match make_key_hashable key with
  | Except.error e => Except.error e
  | Except.ok h =>
      if n_partitions = 0 then Except.error StyxError.ZeroDivisionError
      else Except.ok (h % (n_partitions : Int))

theorem parseUUID_nonneg_range (s : String) :
    ∀ u, parseUUID s = some u → (0 : Int) ≤ (u : Int) := by
  intro u _
  exact Int.ofNat_nonneg u

/-- C10: for every integer key k and partition count N > 0, the computed
partition index is exactly k mod N — integer keys pass through the hash
unchanged. -/
theorem C10_integer_key_partition (k : Int) (N : Nat) (hN : 0 < N) :
    partition (Key.KInt k) N = Except.ok (k % (N : Int)) := by
  have hne : N ≠ 0 := Nat.pos_iff_ne_zero.mp hN
  simp [partition, make_key_hashable, hne]

/-- Witness for C10 at the spec's own example: integer key 42 with 4
partitions routes to 42 mod 4 = 2. -/
theorem C10_integer_key_partition_witness :
    0 < 4 ∧ partition (Key.KInt 42) 4 = Except.ok 2 := by
  refine ⟨by decide, ?_⟩
  have h := C10_integer_key_partition 42 4 (by decide)
  simpa using h

/-- C9: for any key that is neither an integer nor a string (hence in
particular not a UUID-formatted string), the partition computation fails
with the unsupported-key-type error (`NonSupportedKeyType` in the
source), for every partition count. -/
theorem C9_unsupported_key_type (v : String) (N : Nat) :
    partition (Key.KOther v) N = Except.error StyxError.NonSupportedKeyType := rfl

/-- C8 counterexample: the supported integer key -7 hashes to itself,
and -7 is negative, so the hash of a supported key is not always a
non-negative integer. -/
theorem C8_counterexample :
    make_key_hashable (Key.KInt (-7)) = Except.ok (-7) ∧ (-7 : Int) < 0 := by
  exact ⟨rfl, by decide⟩

/-- C8 amended: the key-hashing function is a deterministic (stable) map on
supported keys; integer keys hash to themselves (hence possibly to a
negative integer), while every string key — UUID-formatted or not — hashes
to a non-negative integer. -/
theorem C8_amended_key_hash_stable :
    (∀ k : Int, make_key_hashable (Key.KInt k) = Except.ok k) ∧
    (∀ s : String, ∃ m : Nat, make_key_hashable (Key.KStr s) = Except.ok ((m : Nat) : Int)) := by
  refine ⟨fun k => rfl, fun s => ?_⟩
  cases h : parseUUID s with
  | none => exact ⟨mmh3hash s, by simp [make_key_hashable, h]⟩
  | some u => exact ⟨u, by simp [make_key_hashable, h]⟩

/-- The `NetworkingManager` collaborator as seen by the core: its own
host name, port and worker id, and the locality test
`in_the_same_network`.  The side-effecting methods
(`prepare_function_chain`, `add_remote_function_call`, `send_message`)
are recorded as `NetEvent`s rather than modelled here. -/
structure NetworkingManager : Type where
  host_name : String
  host_port : Nat
  worker_id : Nat
  in_the_same_network : String → Nat → Bool

/-- One entry of `self.__async_remote_calls`:
`(operator_name, function_name, partition, key, params, is_local)`
(stateful_function.py, line 58 and `call_remote_async`). -/
structure QueuedCall : Type where
  operator_name : String
  function_name : String
  partition : Int
  key : Key
  params : List Int
  is_local : Bool
deriving DecidableEq, Repr

/-- The acknowledgment payload
`(host, port, t_id, new_share_fraction, chain_participants)` built in
`__send_async_calls`.  The source stores the share as the string
`str(Fraction(...))`; since that round-trips the exact rational, it is
embedded directly as ℚ. -/
structure AckPayload : Type where
  host : String
  port : Nat
  t_id : Int
  share : ℚ
  chain_participants : List Nat
deriving DecidableEq, Repr

/-- The `RunFuncPayload` handed to the protocol driver for a local
dispatch (fields as constructed in `__send_async_calls`). -/
structure RunFuncPayload : Type where
  request_id : String
  key : Key
  timestamp : Int
  operator_name : String
  partition : Int
  function_name : String
  params : List Int
  ack_payload : AckPayload
deriving DecidableEq, Repr

/-- The wire payload tuple built by `__prepare_message_transmission`:
`(t_id, request_id, operator_name, function_name, key, partition,
timestamp, params)` with the ack payload appended when present. -/
structure WirePayload : Type where
  t_id : Int
  request_id : String
  operator_name : String
  function_name : String
  key : Key
  partition : Int
  timestamp : Int
  params : List Int
  ack : Option AckPayload
deriving DecidableEq, Repr

/-- Observable calls on the networking / protocol collaborators:
`prepare_function_chain(t_id)`, `protocol.run_function(t_id, payload)`,
`add_remote_function_call(t_id, payload)`, and
`send_message(host, port, payload, RunFunRemote, MSGPACK)`. -/
inductive NetEvent : Type where
  | prepareChain : Int → NetEvent
  | runLocal : Int → RunFuncPayload → NetEvent
  | addRemoteCall : Int → RunFuncPayload → NetEvent
  | sendMessage : String → Nat → WirePayload → NetEvent
deriving DecidableEq, Repr

/-- Observable `logging.error` calls.  `errorUnknownOperator op` records
the message `Couldn't find operator: {op} in {dns}` emitted by
`__prepare_message_transmission` on a `KeyError`. -/
inductive LogEvent : Type where
  | errorUnknownOperator : String → LogEvent
deriving DecidableEq, Repr

/-- A partition address `(host, generation, port)`; the code reads
index 0 (host) and index 2 (port). -/
def DnsEntry : Type := String × Nat × Nat

instance : DecidableEq DnsEntry := by
  unfold DnsEntry
  infer_instance

/-- Lookup in a Python dict modelled as an association list. -/
def assocLookup {α : Type} (m : List (String × α)) (k : String) : Option α :=
  (m.find? (fun p => p.1 == k)).map (fun p => p.2)

/-- The immutable per-invocation fields of `StatefulFunction` together
with the queued-call list as it stands when the user function body has
finished (the body only ever appends to it via `call_remote_async`). -/
structure StatefulFunction : Type where
  operator_name : String
  networking : NetworkingManager
  timestamp : Int
  dns : List (String × List (String × DnsEntry))
  t_id : Int
  request_id : String
  async_remote_calls : List QueuedCall
  fallback_enabled : Bool
  key : Key

/-- Embedding of `call_remote_async` (stateful_function.py, lines
166-176): resolves the target partition from the key and the operator's
partition count in the DNS directory, determines locality from the
resolved address, and appends the queued call; a missing operator raises
`KeyError`, an unsupported key raises `NonSupportedKeyType`. -/
def call_remote_async (sf : StatefulFunction) (op fn : String) (key : Key)
    (params : List Int) : Except StyxError StatefulFunction :=
  match assocLookup sf.dns op with
  | none => Except.error (StyxError.KeyErrorMissing op)
  | some parts =>
      match partition key parts.length with
      | Except.error e => Except.error e
      | Except.ok p =>
          match assocLookup parts (toString p) with
          | none => Except.error (StyxError.KeyErrorMissing (toString p))
          | some addr =>
              let is_local := sf.networking.in_the_same_network addr.1 addr.2.2
              Except.ok { sf with async_remote_calls :=
                sf.async_remote_calls ++ [⟨op, fn, p, key, params, is_local⟩] }

/-- Embedding of `__prepare_message_transmission` (stateful_function.py,
lines 222-241): builds the wire tuple and resolves host and port from the
DNS directory; a `KeyError` on the directory lookup is caught, logged
with the operator name, and the function then falls through returning
`None` (modelled as the `none` second component). -/
def prepare_message_transmission (sf : StatefulFunction) (op : String)
    (key : Key) (fn : String) (part : Int) (params : List Int)
    (ack : Option AckPayload) :
    List LogEvent × Option (WirePayload × String × Nat) :=
  match assocLookup sf.dns op with
  | none => ([LogEvent.errorUnknownOperator op], none)
  | some parts =>
      match assocLookup parts (toString part) with
      | none => ([LogEvent.errorUnknownOperator op], none)
      | some addr =>
          ([], some (⟨sf.t_id, sf.request_id, op, fn, key, part,
                      sf.timestamp, params, ack⟩, addr.1, addr.2.2))

/-- The logs, collaborator events and first raised exception produced by
dispatching queued calls. -/
structure DispatchResult : Type where
  logs : List LogEvent
  events : List NetEvent
  err : Option StyxError
deriving DecidableEq, Repr

/-- Embedding of `new_share_fraction` (stateful_function.py, line 121):
`Fraction(f'1/{n}') * Fraction(ack_share)`, exact rational arithmetic. -/
def new_share_fraction (n : Nat) (ack_share : ℚ) : ℚ :=
  (1 / (n : ℚ)) * ack_share

/-- Embedding of the `ack_payload` construction in `__send_async_calls`
(stateful_function.py, lines 121-139).  With no inbound origin
(`ack_host is None`) this node is the root: the origin is its own
networking address and the participant list is passed through.  With an
inbound origin the root's address is reused, and the worker appends its
own id to `chain_participants` exactly when it is not in the same network
segment as the ack origin. -/
def compute_ack_payload (sf : StatefulFunction)
    (ack_origin : Option (String × Nat)) (ack_share : ℚ)
    (chain_participants : List Nat) (n : Nat) : AckPayload :=
  match ack_origin with
  | none =>
      ⟨sf.networking.host_name, sf.networking.host_port, sf.t_id,
        new_share_fraction n ack_share, chain_participants⟩
  | some hp =>
      let cps :=
        if sf.networking.in_the_same_network hp.1 hp.2 then chain_participants
        else chain_participants ++ [sf.networking.worker_id]
      ⟨hp.1, hp.2, sf.t_id, new_share_fraction n ack_share, cps⟩

/-- Embedding of the per-call branch of the dispatch loop in
`__send_async_calls` (stateful_function.py, lines 140-163): a local call
is handed to the protocol driver (`run_function`) and registered with the
networking collaborator (`add_remote_function_call`); a remote call goes
through `__call_remote_function_no_response`, where a failed directory
lookup makes `__prepare_message_transmission` return `None` and the
unpacking of `None` raises a `TypeError`. -/
def dispatch_one (sf : StatefulFunction) (ack : AckPayload)
    (qc : QueuedCall) : DispatchResult :=
  if qc.is_local then
    let payload : RunFuncPayload :=
      ⟨sf.request_id, qc.key, sf.timestamp, qc.operator_name, qc.partition,
        qc.function_name, qc.params, ack⟩
    ⟨[], [NetEvent.runLocal sf.t_id payload,
          NetEvent.addRemoteCall sf.t_id payload], none⟩
  else
    match prepare_message_transmission sf qc.operator_name qc.key
        qc.function_name qc.partition qc.params (some ack) with
    | (logs, none) => ⟨logs, [], some StyxError.TypeErrorUnpackNone⟩
    | (logs, some r) =>
        ⟨logs, [NetEvent.sendMessage r.2.1 r.2.2 r.1], none⟩

/-- The whole dispatch loop followed by `asyncio.gather`: every call is
processed (gather does not cancel the siblings of a failing coroutine),
logs and events accumulate in order, and the first raised exception, if
any, is the one `gather` re-raises. -/
def dispatch_all (sf : StatefulFunction) (ack : AckPayload) :
    List QueuedCall → DispatchResult
  | [] => ⟨[], [], none⟩
  | qc :: rest =>
      let r1 := dispatch_one sf ack qc
      let r2 := dispatch_all sf ack rest
      ⟨r1.logs ++ r2.logs, r1.events ++ r2.events, r1.err.orElse (fun _ => r2.err)⟩

/-- Embedding of `__send_async_calls` (stateful_function.py, lines
117-164): with zero queued calls it returns 0 at once; otherwise it
computes the subdivided share, builds the ack payload (registering the
chain with `prepare_function_chain` first when this node is the root) and
dispatches every queued call with that payload.  Returns the number of
queued calls together with the produced logs, events and first
exception. -/
def send_async_calls (sf : StatefulFunction)
    (ack_origin : Option (String × Nat)) (ack_share : ℚ)
    (chain_participants : List Nat) : Nat × DispatchResult :=
  let n := sf.async_remote_calls.length
  if n = 0 then (0, ⟨[], [], none⟩)
  else
    let ack := compute_ack_payload sf ack_origin ack_share chain_participants n
    let pre : List NetEvent :=
      match ack_origin with
      | none => [NetEvent.prepareChain sf.t_id]
      | some _ => []
    let d := dispatch_all sf ack sf.async_remote_calls
    (n, ⟨d.logs, pre ++ d.events, d.err⟩)

/-- The inbound keyword arguments of `__call__`: either no
acknowledgment metadata, or the `ack_host`, `ack_port`, `ack_share` and
`chain_participants` kwargs of a middle link. -/
inductive CallKwargs : Type where
  | noAck : CallKwargs
  | withAck : String → Nat → ℚ → List Nat → CallKwargs

/-- The value returned by the invocation wrapper to the protocol driver,
together with the logs and collaborator events the invocation emitted. -/
structure CallOutcome (α : Type) : Type where
  result : α ⊕ StyxError
  n_remote_calls : Int
  logs : List LogEvent
  events : List NetEvent

/-- Embedding of `__call__` (stateful_function.py, lines 62-85).
`run_result` is the outcome of `await self.run(*args)` and `sf` the
context as the body left it.  On a raised body exception the wrapper
returns `(e, -1)` with nothing dispatched.  Otherwise: in fallback mode
it returns the queued-call count immediately; with inbound ack metadata
it forwards it to `__send_async_calls`; with queued calls but no inbound
metadata it originates a chain with share 1 and empty participants; with
neither it reports 0.  An exception raised during dispatch is caught by
the same `try` and also returned as `(e, -1)`. -/
def sf_call {α : Type} (sf : StatefulFunction)
    (run_result : Except StyxError α) (kw : CallKwargs) : CallOutcome α :=
  match run_result with
  | Except.error e => ⟨Sum.inr e, -1, [], []⟩
  | Except.ok res =>
      if sf.fallback_enabled then
        ⟨Sum.inl res, (sf.async_remote_calls.length : Int), [], []⟩
      else
        match kw with
        | CallKwargs.withAck h p share cps =>
            let nd := send_async_calls sf (some (h, p)) share cps
            match nd.2.err with
            | some e => ⟨Sum.inr e, -1, nd.2.logs, nd.2.events⟩
            | none => ⟨Sum.inl res, (nd.1 : Int), nd.2.logs, nd.2.events⟩
        | CallKwargs.noAck =>
            if 0 < sf.async_remote_calls.length then
              let nd := send_async_calls sf none 1 []
              match nd.2.err with
              | some e => ⟨Sum.inr e, -1, nd.2.logs, nd.2.events⟩
              | none => ⟨Sum.inl res, (nd.1 : Int), nd.2.logs, nd.2.events⟩
            else ⟨Sum.inl res, 0, [], []⟩

/-- The acknowledgment payload carried by a collaborator event: the ack
embedded in a local `RunFuncPayload` or in a remote wire payload;
`prepare_function_chain` carries none. -/
def ackOfEvent : NetEvent → Option AckPayload
  | NetEvent.prepareChain _ => none
  | NetEvent.runLocal _ p => some p.ack_payload
  | NetEvent.addRemoteCall _ p => some p.ack_payload
  | NetEvent.sendMessage _ _ w => w.ack

mutual
/-- A fan-out tree of invocations: each node dispatches one call per
child; a node with no children is a terminal leaf that acknowledges the
share it received. -/
inductive FanoutTree : Type where
  | node : FanoutForest → FanoutTree
/-- The children of a fan-out tree node. -/
inductive FanoutForest : Type where
  | nil : FanoutForest
  | cons : FanoutTree → FanoutForest → FanoutForest
end

/-- Number of children in a forest (the branching factor N of a node). -/
def FanoutForest.numChildren : FanoutForest → Nat
  | FanoutForest.nil => 0
  | FanoutForest.cons _ f => f.numChildren + 1

mutual
/-- Sum of the shares acknowledged by the leaves of a fan-out tree whose
root holds share S: a leaf acknowledges S itself; a node with N ≥ 1
children hands each child `new_share_fraction N S` exactly as
`__send_async_calls` does, and the leaves below are summed. -/
def leafShareSum : FanoutTree → ℚ → ℚ
  | FanoutTree.node FanoutForest.nil, S => S
  | FanoutTree.node (FanoutForest.cons t f), S =>
      leafShareSumForest (FanoutForest.cons t f)
        (new_share_fraction (FanoutForest.cons t f).numChildren S)
/-- Sum of `leafShareSum` over the trees of a forest, each child holding
the same subdivided share. -/
def leafShareSumForest : FanoutForest → ℚ → ℚ
  | FanoutForest.nil, _ => 0
  | FanoutForest.cons t f, sh => leafShareSum t sh + leafShareSumForest f sh
end

mutual
/-- Conservation through a whole tree: the leaves below a node holding
share S acknowledge exactly S in total, for every tree shape. -/
theorem leafShareSum_eq : ∀ (t : FanoutTree) (S : ℚ), leafShareSum t S = S
  | FanoutTree.node FanoutForest.nil, S => by rw [leafShareSum]
  | FanoutTree.node (FanoutForest.cons t f), S => by
      rw [leafShareSum, leafShareSumForest_eq (FanoutForest.cons t f)]
      have hn : ((FanoutForest.cons t f).numChildren : ℚ) ≠ 0 := by
        have : (FanoutForest.cons t f).numChildren = f.numChildren + 1 := rfl
        rw [this]
        exact_mod_cast Nat.succ_ne_zero f.numChildren
      rw [new_share_fraction]
      field_simp
/-- A forest of N children each holding sh acknowledges N * sh. -/
theorem leafShareSumForest_eq :
    ∀ (f : FanoutForest) (sh : ℚ),
      leafShareSumForest f sh = (f.numChildren : ℚ) * sh
  | FanoutForest.nil, sh => by
      rw [leafShareSumForest]
      simp [FanoutForest.numChildren]
  | FanoutForest.cons t f, sh => by
      rw [leafShareSumForest, leafShareSum_eq t sh, leafShareSumForest_eq f sh,
        FanoutForest.numChildren]
      push_cast
      ring
end

/-- A successfully built wire payload carries exactly the ack payload the
dispatch step passed in. -/
theorem prepare_message_transmission_ack_eq (sf : StatefulFunction)
    (op : String) (key : Key) (fn : String) (part : Int) (params : List Int)
    (a : Option AckPayload) (logs : List LogEvent)
    (r : WirePayload × String × Nat)
    (h2 : prepare_message_transmission sf op key fn part params a
            = (logs, some r)) :
    r.1.ack = a := by
  unfold prepare_message_transmission at h2
  split at h2
  · simp at h2
  · split at h2
    · simp at h2
    · have h5 := congrArg Prod.snd h2
      simp only at h5
      injection h5 with h6
      rw [← h6]

/-- Every collaborator event produced by dispatching one queued call
carries the single ack payload computed before the loop. -/
theorem dispatch_one_ack (sf : StatefulFunction) (ack : AckPayload)
    (qc : QueuedCall) :
    ∀ ev ∈ (dispatch_one sf ack qc).events, ackOfEvent ev = some ack := by
  intro ev hev
  unfold dispatch_one at hev
  by_cases hl : qc.is_local
  · simp only [hl, if_true, List.mem_cons, List.mem_singleton,
      List.not_mem_nil, or_false] at hev
    rcases hev with h1 | h1
    · simp [h1, ackOfEvent]
    · simp [h1, ackOfEvent]
  · simp only [hl, if_false, Bool.false_eq_true] at hev
    rcases hpm : prepare_message_transmission sf qc.operator_name qc.key
        qc.function_name qc.partition qc.params (some ack) with ⟨logs, r?⟩
    rw [hpm] at hev
    rcases r? with _ | r
    · simp at hev
    · simp only [List.mem_singleton] at hev
      rw [hev]
      exact prepare_message_transmission_ack_eq sf qc.operator_name qc.key
        qc.function_name qc.partition qc.params (some ack) logs r hpm

/-- Every collaborator event produced by the dispatch loop carries the
single ack payload computed before the loop. -/
theorem dispatch_all_ack (sf : StatefulFunction) (ack : AckPayload) :
    ∀ (l : List QueuedCall), ∀ ev ∈ (dispatch_all sf ack l).events,
      ackOfEvent ev = some ack := by
  intro l
  induction l with
  | nil => intro ev hev; cases hev
  | cons qc rest ih =>
      intro ev hev
      unfold dispatch_all at hev
      simp only [List.mem_append] at hev
      rcases hev with h1 | h1
      · exact dispatch_one_ack sf ack qc ev h1
      · exact ih ev h1

/-- Every collaborator event of `__send_async_calls` that carries an ack
payload carries exactly the one computed from the inbound origin, share
and participant list. -/
theorem send_async_calls_ack (sf : StatefulFunction)
    (origin : Option (String × Nat)) (S : ℚ) (cps : List Nat) :
    ∀ ev ∈ (send_async_calls sf origin S cps).2.events,
      ∀ a, ackOfEvent ev = some a →
        a = compute_ack_payload sf origin S cps sf.async_remote_calls.length := by
  intro ev hev a ha
  unfold send_async_calls at hev
  by_cases hn : sf.async_remote_calls.length = 0
  · simp only [hn, if_true] at hev
    cases hev
  · simp only [hn, if_false] at hev
    simp only [List.mem_append] at hev
    rcases hev with h1 | h1
    · rcases origin with _ | hp
      · simp only [List.mem_singleton] at h1
        rw [h1] at ha
        cases ha
      · cases h1
    · have h2 := dispatch_all_ack sf
        (compute_ack_payload sf origin S cps sf.async_remote_calls.length)
        sf.async_remote_calls ev h1
      rw [h2] at ha
      injection ha with h3
      rw [h3]

/-- A concrete networking collaborator whose locality test always
answers true (every address is in-segment). -/
def nm0 : NetworkingManager := ⟨"w0", 8000, 3, fun _ _ => true⟩

/-- A concrete networking collaborator whose locality test always
answers false (every address is cross-segment); its worker id is 5. -/
def nm1 : NetworkingManager := ⟨"w1", 8001, 5, fun _ _ => false⟩

/-- A concrete directory: operator `cart` with a single partition. -/
def dns0 : List (String × List (String × DnsEntry)) :=
  [("cart", [("0", ("w0", 0, 8000))])]

/-- A concrete queued local call on operator `cart`. -/
def qc_local : QueuedCall := ⟨"cart", "checkout", 0, Key.KInt 0, [], true⟩

/-- A concrete invocation context with one queued local call. -/
def sf0 : StatefulFunction :=
  ⟨"cart", nm0, 0, dns0, 7, "rq", [qc_local], false, Key.KInt 0⟩

/-- The same context on a worker whose locality test answers false. -/
def sf1 : StatefulFunction := { sf0 with networking := nm1 }

/-- The same context with no queued calls. -/
def sfE : StatefulFunction := { sf0 with async_remote_calls := [] }

/-- A concrete queued remote call naming an operator absent from the
directory. -/
def qc_ghost : QueuedCall := ⟨"ghost", "f", 0, Key.KInt 0, [], false⟩

/-- The context whose only queued call targets the unknown operator. -/
def sfG : StatefulFunction := { sf0 with async_remote_calls := [qc_ghost] }

/-- The context in fallback mode. -/
def sf_fb : StatefulFunction := { sf0 with fallback_enabled := true }

/-- C1: when an invocation dispatches N ≥ 1 queued calls while holding
acknowledgment share S (S = 1 at the root, the inbound share at a middle
link), the ack payload it builds carries exactly the exact-rational share
S * (1/N); every dispatched child call carries that same payload, so the
shares handed to the direct children sum exactly to N * (S * (1/N)) = S;
and inductively the leaf shares of any fan-out tree rooted with share 1
sum exactly to 1 — exact rational equality throughout, no floating
point. -/
theorem C1_exact_share_conservation (sf : StatefulFunction)
    (origin : Option (String × Nat)) (S : ℚ) (cps : List Nat)
    (hn : 1 ≤ sf.async_remote_calls.length) :
    (compute_ack_payload sf origin S cps sf.async_remote_calls.length).share
        = S * (1 / (sf.async_remote_calls.length : ℚ)) ∧
    (sf.async_remote_calls.length : ℚ) *
        (compute_ack_payload sf origin S cps sf.async_remote_calls.length).share
        = S ∧
    (∀ ev ∈ (send_async_calls sf origin S cps).2.events, ∀ a,
        ackOfEvent ev = some a →
          a.share = S * (1 / (sf.async_remote_calls.length : ℚ))) ∧
    (∀ t : FanoutTree, leafShareSum t 1 = 1) := by
  have hne : ((sf.async_remote_calls.length : ℚ)) ≠ 0 := by
    have h2 : sf.async_remote_calls.length ≠ 0 := by omega
    exact_mod_cast h2
  have hshare :
      (compute_ack_payload sf origin S cps sf.async_remote_calls.length).share
        = S * (1 / (sf.async_remote_calls.length : ℚ)) := by
    rcases origin with _ | hp
    · simp only [compute_ack_payload, new_share_fraction]
      ring
    · simp only [compute_ack_payload, new_share_fraction]
      ring
  refine ⟨hshare, ?_, ?_, fun t => leafShareSum_eq t 1⟩
  · rw [hshare]
    field_simp
  · intro ev hev a ha
    have h2 := send_async_calls_ack sf origin S cps ev hev a ha
    rw [h2, hshare]

/-- Witness for C1: a context with one queued call, inbound share 1/2;
the child carries 1/2 * (1/1), and a depth-one tree conserves share 1. -/
theorem C1_exact_share_conservation_witness :
    1 ≤ sf0.async_remote_calls.length ∧
    (compute_ack_payload sf0 (some ("o", 1)) (1/2 : ℚ) []
        sf0.async_remote_calls.length).share
      = (1/2 : ℚ) * (1 / (sf0.async_remote_calls.length : ℚ)) ∧
    leafShareSum (FanoutTree.node (FanoutForest.cons
        (FanoutTree.node FanoutForest.nil) FanoutForest.nil)) 1 = 1 := by
  refine ⟨by decide, ?_, ?_⟩
  · exact (C1_exact_share_conservation sf0 (some ("o", 1)) (1/2) []
      (by decide)).1
  · exact (C1_exact_share_conservation sf0 (some ("o", 1)) (1/2) []
      (by decide)).2.2.2 _

/-- C3: at a middle link the participant list in the forwarded ack
payload is unchanged when the worker is in the same network segment as
the ack origin, and has the worker's own identifier appended exactly
once otherwise; every dispatched child call carries that one payload. -/
theorem C3_chain_participants_append (sf : StatefulFunction) (h : String)
    (p : Nat) (S : ℚ) (cps : List Nat) :
    (sf.networking.in_the_same_network h p = true →
      (compute_ack_payload sf (some (h, p)) S cps
          sf.async_remote_calls.length).chain_participants = cps) ∧
    (sf.networking.in_the_same_network h p = false →
      (compute_ack_payload sf (some (h, p)) S cps
          sf.async_remote_calls.length).chain_participants
        = cps ++ [sf.networking.worker_id]) ∧
    (∀ ev ∈ (send_async_calls sf (some (h, p)) S cps).2.events, ∀ a,
        ackOfEvent ev = some a →
          a.chain_participants =
            if sf.networking.in_the_same_network h p then cps
            else cps ++ [sf.networking.worker_id]) := by
  refine ⟨?_, ?_, ?_⟩
  · intro hs
    simp [compute_ack_payload, hs]
  · intro hs
    simp [compute_ack_payload, hs]
  · intro ev hev a ha
    have h2 := send_async_calls_ack sf (some (h, p)) S cps ev hev a ha
    rw [h2]
    by_cases hs : sf.networking.in_the_same_network h p
    · simp [compute_ack_payload, hs]
    · simp [compute_ack_payload, hs]

/-- Witness for C3: with an in-segment origin the list [9] is passed
through unchanged; with a cross-segment origin worker 5 appends itself
once, giving [9, 5]. -/
theorem C3_chain_participants_append_witness :
    (compute_ack_payload sf0 (some ("o", 1)) (1/2 : ℚ) [9]
        sf0.async_remote_calls.length).chain_participants = [9] ∧
    (compute_ack_payload sf1 (some ("o", 1)) (1/2 : ℚ) [9]
        sf1.async_remote_calls.length).chain_participants = [9, 5] := by
  constructor
  · exact (C3_chain_participants_append sf0 "o" 1 (1/2) [9]).1 rfl
  · have h2 := (C3_chain_participants_append sf1 "o" 1 (1/2) [9]).2.1 rfl
    simpa [sf1, nm1] using h2

/-- C2: a failure raised by the user function body is caught by the
invocation wrapper and returned as the pair (captured error, -1); the
wrapper (a total function here) never propagates it, and the caller
always receives a uniform (result-or-error, remote-call-count) pair. -/
theorem C2_user_fault_uniform_pair {α : Type} (sf : StatefulFunction)
    (e : StyxError) (kw : CallKwargs) :
    (sf_call (α := α) sf (Except.error e) kw).result = Sum.inr e ∧
    (sf_call (α := α) sf (Except.error e) kw).n_remote_calls = -1 :=
  ⟨rfl, rfl⟩

/-- C7: a failed invocation has no outward effect: when the body raises,
the wrapper returns (error, -1) having emitted no log, dispatched no
queued call, originated no acknowledgment share and registered no chain
with the networking collaborator (empty event list). -/
theorem C7_failed_invocation_no_effects {α : Type} (sf : StatefulFunction)
    (e : StyxError) (kw : CallKwargs) :
    sf_call (α := α) sf (Except.error e) kw
      = ⟨Sum.inr e, -1, [], []⟩ := rfl

/-- C5: in fallback mode the wrapper returns (result, queued-call count)
immediately: no network dispatch, no acknowledgment splitting, no log,
regardless of how many calls were queued. -/
theorem C5_fallback_no_dispatch {α : Type} (sf : StatefulFunction)
    (res : α) (kw : CallKwargs) (hfb : sf.fallback_enabled = true) :
    sf_call sf (Except.ok res) kw
      = ⟨Sum.inl res, (sf.async_remote_calls.length : Int), [], []⟩ := by
  simp [sf_call, hfb]

/-- Witness for C5: the fallback context with one queued call returns
(42, 1) with no events. -/
theorem C5_fallback_no_dispatch_witness :
    sf_fb.fallback_enabled = true ∧
    sf_call sf_fb (Except.ok (42 : Int)) CallKwargs.noAck
      = ⟨Sum.inl 42, 1, [], []⟩ := by
  refine ⟨rfl, ?_⟩
  have h2 := C5_fallback_no_dispatch sf_fb (42 : Int) CallKwargs.noAck rfl
  simpa [sf_fb, sf0] using h2

/-- C4 counterexample: an invocation with an inbound share and zero
queued calls and an invocation with no inbound share and zero queued
calls report the same remote-call count, namely 0 — not different
counts as claimed. -/
theorem C4_counterexample :
    (sf_call sfE (Except.ok (0 : Int))
        (CallKwargs.withAck "o" 1 (1/2 : ℚ) [])).n_remote_calls
      = (sf_call sfE (Except.ok (0 : Int)) CallKwargs.noAck).n_remote_calls ∧
    (sf_call sfE (Except.ok (0 : Int)) CallKwargs.noAck).n_remote_calls
      = 0 := ⟨rfl, rfl⟩

/-- C4 amended: an invocation that receives an inbound acknowledgment
share but queues zero further calls is a valid terminal leaf and reports
remote-call count 0, exactly as an invocation with no inbound share and
no queued calls does; the wrapper's returned pair is identical in the
two cases (result, 0, no logs, no events), so they are distinguished by
the caller's own inbound metadata, not by the reported count. -/
theorem C4_amended_terminal_leaf {α : Type} (sf : StatefulFunction)
    (res : α) (h : String) (p : Nat) (S : ℚ) (cps : List Nat)
    (hq : sf.async_remote_calls = []) (hfb : sf.fallback_enabled = false) :
    sf_call sf (Except.ok res) (CallKwargs.withAck h p S cps)
      = ⟨Sum.inl res, 0, [], []⟩ ∧
    sf_call sf (Except.ok res) CallKwargs.noAck
      = ⟨Sum.inl res, 0, [], []⟩ := by
  constructor
  · simp [sf_call, hfb, send_async_calls, hq]
  · simp [sf_call, hfb, hq]

/-- Witness for C4 amended: the concrete empty-queue context returns
(1, 0) with no events in the inbound-share case. -/
theorem C4_amended_terminal_leaf_witness :
    sfE.async_remote_calls = [] ∧ sfE.fallback_enabled = false ∧
    sf_call sfE (Except.ok (1 : Int)) (CallKwargs.withAck "o" 1 (1/2 : ℚ) [])
      = ⟨Sum.inl 1, 0, [], []⟩ := by
  refine ⟨rfl, rfl, ?_⟩
  exact (C4_amended_terminal_leaf sfE (1 : Int) "o" 1 (1/2) [] rfl rfl).1

/-- C6: when the directory cannot resolve the operator of a queued
remote call, the dispatch is fatal to that call: the miss is logged with
the operator name and the resulting exception is surfaced to the caller
as (error, -1), never silently dropped. -/
theorem C6_unknown_operator_fatal {α : Type} (sf : StatefulFunction)
    (res : α) (qc : QueuedCall) (hfb : sf.fallback_enabled = false)
    (hq : sf.async_remote_calls = [qc]) (hl : qc.is_local = false)
    (hdns : assocLookup sf.dns qc.operator_name = none) :
    (sf_call sf (Except.ok res) CallKwargs.noAck).result
        = Sum.inr StyxError.TypeErrorUnpackNone ∧
    (sf_call sf (Except.ok res) CallKwargs.noAck).n_remote_calls = -1 ∧
    LogEvent.errorUnknownOperator qc.operator_name
      ∈ (sf_call sf (Except.ok res) CallKwargs.noAck).logs := by
  have hd1 : ∀ ack : AckPayload, dispatch_one sf ack qc
      = ⟨[LogEvent.errorUnknownOperator qc.operator_name], [],
          some StyxError.TypeErrorUnpackNone⟩ := by
    intro ack
    unfold dispatch_one prepare_message_transmission
    rw [hl, hdns]
    simp
  have hsend : send_async_calls sf none 1 []
      = (1, ⟨[LogEvent.errorUnknownOperator qc.operator_name],
          [NetEvent.prepareChain sf.t_id],
          some StyxError.TypeErrorUnpackNone⟩) := by
    unfold send_async_calls
    rw [hq]
    simp [dispatch_all, hd1, Option.orElse]
  simp [sf_call, hfb, hq, hsend]

/-- Witness for C6: the concrete context whose queued call targets the
unknown operator `ghost` returns (TypeError, -1) and logs the miss. -/
theorem C6_unknown_operator_fatal_witness :
    (sf_call sfG (Except.ok (0 : Int)) CallKwargs.noAck).result
        = Sum.inr StyxError.TypeErrorUnpackNone ∧
    (sf_call sfG (Except.ok (0 : Int)) CallKwargs.noAck).n_remote_calls = -1 ∧
    LogEvent.errorUnknownOperator "ghost"
      ∈ (sf_call sfG (Except.ok (0 : Int)) CallKwargs.noAck).logs := by
  have h2 := C6_unknown_operator_fatal sfG (0 : Int) qc_ghost rfl rfl rfl rfl
  simpa [qc_ghost] using h2
